import Mathlib

/-!
Shallow embedding of the `stock_telegram_sender` serverless handlers.

The repository contains several near-duplicate variants of one endpoint:

* `handler` — the cached variant (src/api/send.js, first document): symbol
  validation, 30 s in-memory cache, quote fetch, message formatting,
  Telegram send, caching of the success payload.
* `part000Handler` — the alert variant (src/unnamed/part_000): no cache,
  best-effort Telegram error alerts on every failure path.
* `part001Handler` — cache + alert variant (src/unnamed/part_001, second
  document, lines 191-427).
* `TelegramService.sendMessage` — retry wrapper (src/api/send.js, third
  document, lines 391-413).
* `calculateSMA` — moving-average helper of the signal-bot variants.

JavaScript quote fields that can be `null` or `undefined` are modelled by
the `JVal` type; numeric values are rationals (the claims never exercise
float-specific behaviour such as NaN arithmetic on quote-field numbers).
The two outbound network effects (quote fetch, Telegram post) are modelled
by oracle arguments describing the outcome the network would produce, and
each handler result carries counters for how many calls of each kind the
control path performs.
-/

/-- A JavaScript value as it appears in a quote field: `null`, `undefined`,
or a number (modelled as a rational). -/
inductive JVal where
  | null : JVal
  | undef : JVal
  | num : ℚ → JVal
deriving DecidableEq

/-- JavaScript truthiness of a quote field: `null`, `undefined` and `0`
are falsy, every other number is truthy. -/
def jsTruthy : JVal → Bool
  | .null => false
  | .undef => false
  | .num q => decide (q ≠ 0)

/-- The JavaScript comparison `v >= 0`: `null` converts to `0` (so the
comparison holds), `undefined` converts to NaN (so it fails), and a number
compares numerically. -/
def jsGeZero : JVal → Bool
  | .null => true
  | .undef => false
  | .num q => decide (0 ≤ q)

/-- JavaScript `ToNumber` on a quote field; `none` stands for NaN
(produced by `undefined`). -/
def jsToNumber : JVal → Option ℚ
  | .null => some 0
  | .undef => none
  | .num q => some q

/-- Two decimal digits with a leading zero, as in the fractional part of
`Number.prototype.toFixed(2)`. -/
def pad2 (n : Nat) : String :=
  if n < 10 then "0" ++ toString n else toString n

/-- Render a nonnegative amount of hundredths as a fixed two-decimal
string. -/
def natFixed2 (n : Nat) : String :=
  toString (n / 100) ++ "." ++ pad2 (n % 100)

/-- `Number.prototype.toFixed(2)` on an exact rational: the sign is split
off, the magnitude is scaled by 100 and rounded to the nearest integer with
ties to the larger candidate, per the ECMAScript algorithm. -/
def toFixed2 (q : ℚ) : String :=
  if q < 0 then "-" ++ natFixed2 (Int.toNat ⌊-q * 100 + 1/2⌋)
  else natFixed2 (Int.toNat ⌊q * 100 + 1/2⌋)

/-- A Finnhub quote: current, high, low, open, previous close, percent
change, unix timestamp. -/
structure Quote where
  c : JVal
  h : JVal
  l : JVal
  o : JVal
  pc : JVal
  dp : JVal
  t : JVal
deriving DecidableEq

/-- `formatPrice` of src/api/send.js lines 89-92 (and the identical copy in
src/unnamed/part_001 lines 311-314): `null`/`undefined` become the `N/A`
placeholder, numbers are rendered with `toFixed(2)`. -/
def formatPrice : JVal → String
  | .null => "N/A"
  | .undef => "N/A"
  | .num q => toFixed2 q

/-- `formatPrice` of src/unnamed/part_000 line 103
(optional chaining with the `N/A` fallback): on the `JVal` domain it matches
other variants. -/
def formatPriceAlt : JVal → String
  | .null => "N/A"
  | .undef => "N/A"
  | .num q => toFixed2 q

/-- The string-valued components computed by the cached handler variants
before assembling the Telegram message (src/api/send.js lines 94-107,
src/unnamed/part_001 lines 316-327). -/
structure Rendered where
  currentPrice : String
  highPrice : String
  lowPrice : String
  openPrice : String
  prevClosePrice : String
  percentChange : String
  changeValue : String
  emoji : String
  sign : String
deriving DecidableEq

/-- Field rendering of src/api/send.js lines 94-107: each price through
`formatPrice`, the percent change through the truthiness test
on `quoteData.dp` with the `0.00` fallback, the delta guarded by
`quoteData.c && quoteData.pc`, and direction/sign by `quoteData.dp >= 0`. -/
def renderFields (q : Quote) : Rendered where
  currentPrice := formatPrice q.c
  highPrice := formatPrice q.h
  lowPrice := formatPrice q.l
  openPrice := formatPrice q.o
  prevClosePrice := formatPrice q.pc
  percentChange := if jsTruthy q.dp then formatPrice q.dp else "0.00"
  changeValue :=
    if jsTruthy q.c && jsTruthy q.pc then
      match q.c, q.pc with
      | .num a, .num b => toFixed2 (a - b)
      | _, _ => "N/A"
    else "N/A"
  emoji := if jsGeZero q.dp then "💹 Up" else "🔻 Down"
  sign := if jsGeZero q.dp then "+" else ""

/-- The `Change:` line of the Telegram message
(src/api/send.js line 123, without the trailing blank line). -/
def changeLine (q : Quote) : String :=
  let r := renderFields q
  "Change: " ++ r.emoji ++ " *$" ++ r.changeValue ++ "* (" ++ r.sign ++
    r.percentChange ++ "%)"

/-- The delta of src/unnamed/part_000 line 110,
`(quoteData.c - quoteData.pc).toFixed(2)`, which is unguarded: `null`
converts to `0`, `undefined` poisons the subtraction to NaN. -/
def part000Delta (c pc : JVal) : String :=
  match jsToNumber c, jsToNumber pc with
  | some a, some b => toFixed2 (a - b)
  | _, _ => "NaN"

/-- Field rendering of src/unnamed/part_000 lines 107-117: like
`renderFields` except that the percent change goes straight through
`formatPrice` (so `null`/`undefined` render as `N/A`) and the delta is
unguarded. -/
def part000Render (q : Quote) : Rendered where
  currentPrice := formatPriceAlt q.c
  highPrice := formatPriceAlt q.h
  lowPrice := formatPriceAlt q.l
  openPrice := formatPriceAlt q.o
  prevClosePrice := formatPriceAlt q.pc
  percentChange := formatPriceAlt q.dp
  changeValue := part000Delta q.c q.pc
  emoji := if jsGeZero q.dp then "💹 Up" else "🔻 Down"
  sign := if jsGeZero q.dp then "+" else ""

/-- The `data` object of the success payload: the raw (unrounded) quote
fields echoed back to the caller. -/
structure RespData where
  symbol : String
  currentPrice : JVal
  percentChange : JVal
  timestamp : JVal
deriving DecidableEq

/-- A JSON response body: success flag, human-readable message, optional
data object. -/
structure RespBody where
  success : Bool
  message : String
  data : Option RespData
deriving DecidableEq

/-- One entry of the request cache: insertion time and the stored
response payload. -/
structure CacheEntry where
  timestamp : ℤ
  data : RespBody
deriving DecidableEq

/-- The in-memory `requestCache` Map, as an association list keyed by
`"symbol:" ++ uppercased symbol`. -/
abbrev CacheMap := List (String × CacheEntry)

/-- `requestCache.get`/`has`. -/
def cacheGet (m : CacheMap) (k : String) : Option CacheEntry :=
  List.lookup k m

/-- `requestCache.set`: prepending shadows any older entry for the same
key, which is lookup-equivalent to `Map.set`. -/
def cacheSet (m : CacheMap) (k : String) (v : CacheEntry) : CacheMap :=
  (k, v) :: m

/-- The three environment credentials; the empty string stands for an
absent or empty (hence falsy) variable. -/
structure Config where
  finnhubKey : String
  telegramToken : String
  chatId : String
deriving DecidableEq

/-- The check `!FINNHUB_API_KEY || !TELEGRAM_BOT_TOKEN || !TELEGRAM_CHAT_ID`
negated: all three credentials present. -/
def Config.ok (c : Config) : Bool :=
  !(c.finnhubKey == "") && !(c.telegramToken == "") && !(c.chatId == "")

/-- Number of Telegram posts the alert helper performs: it returns early
without posting when the bot token or chat id is missing. -/
def alertCount (c : Config) : Nat :=
  if c.telegramToken = "" ∨ c.chatId = "" then 0 else 1

/-- `symbol.toUpperCase()` (ASCII case mapping, which is all the regular
expression below can be affected by), written over the character list so
that it evaluates on concrete symbols. -/
def jsToUpper (s : String) : String :=
  String.mk (s.data.map Char.toUpper)

/-- `SYMBOL_REGEX.test`, with `SYMBOL_REGEX = /^[A-Z]\x7b1,5\x7d$/`:
one to five uppercase ASCII letters. -/
def symbolRegexTest (s : String) : Bool :=
  decide (1 ≤ s.length) && decide (s.length ≤ 5) &&
    s.toList.all (fun ch => decide ('A' ≤ ch) && decide (ch ≤ 'Z'))

/-- `CACHE_TTL = 30000` milliseconds. -/
def CACHE_TTL : ℤ := 30000

/-- Outcome the network would produce for the Finnhub quote request. -/
inductive FetchOutcome where
  | ok : Quote → FetchOutcome
  | badFormat : FetchOutcome
  | rateLimited : FetchOutcome
  | timeout : FetchOutcome
  | netError : FetchOutcome
deriving DecidableEq

/-- Outcome the network would produce for the Telegram message post. -/
inductive SendOutcome where
  | ok : SendOutcome
  | rateLimited : SendOutcome
  | timeout : SendOutcome
  | fail : SendOutcome
deriving DecidableEq

/-- Result of one invocation of the cached handler: status, JSON body
(`none` for the body-less OPTIONS reply), the cache after the call, and
how many quote-provider and messaging-provider calls were made.
`telegramCalls` counts stock-update messages, `alertCalls` counts
error-alert messages (always 0 in this variant, which has no alert path). -/
structure HResult where
  status : Nat
  body : Option RespBody
  cache : CacheMap
  finnhubCalls : Nat
  telegramCalls : Nat
  alertCalls : Nat
deriving DecidableEq

def configErrMsg : String := "Server configuration error"

def invalidSymbolMsg : String :=
  "Invalid stock symbol. Please provide a valid 1-5 character ticker symbol."

def rateLimitMsg : String := "Rate limit exceeded. Please try again later."

def timeoutMsg : String :=
  "Request timeout. The stock data service is currently unavailable."

def genericFailMsg : String :=
  "Failed to fetch stock data. Please try again later."

def notifiedFailMsg : String :=
  "Failed to fetch stock data. Our team has been notified."

def notFoundMsg (sym : String) : String :=
  "No data available for symbol: " ++ sym ++
    ". The symbol may be invalid or delisted."

def notFoundShortMsg (sym : String) : String :=
  "No data available for symbol: " ++ sym

def successMsg (sym : String) : String :=
  "Stock data for " ++ sym ++ " sent to Telegram successfully."

def successMsg000 (sym : String) : String :=
  "Stock data for " ++ sym ++ " sent successfully"

def badFormat000Msg : String := "Received invalid data from stock service"

/-- The success payload of src/api/send.js lines 146-155 (identical in
part_001 lines 365-374): success flag, confirmation text, and the raw
quote fields. -/
def successPayload (up : String) (q : Quote) : RespBody :=
  ⟨true, successMsg up, some ⟨up, q.c, q.dp, q.t⟩⟩

/-- src/api/send.js lines 58-188: the part of the cached handler past the
cache check — quote fetch (1 Finnhub call), not-found check, message
formatting, Telegram send, caching of the success payload, and the shared
`catch` mapping (429 when the upstream answered 429, 504 on
`ECONNABORTED`, 500 otherwise). -/
def fetchPhase (up : String) (cache : CacheMap) (now : ℤ)
    (fetch : FetchOutcome) (send : SendOutcome) : HResult :=
  match fetch with
  | .badFormat => ⟨500, some ⟨false, genericFailMsg, none⟩, cache, 1, 0, 0⟩
  | .rateLimited => ⟨429, some ⟨false, rateLimitMsg, none⟩, cache, 1, 0, 0⟩
  | .timeout => ⟨504, some ⟨false, timeoutMsg, none⟩, cache, 1, 0, 0⟩
  | .netError => ⟨500, some ⟨false, genericFailMsg, none⟩, cache, 1, 0, 0⟩
  | .ok q =>
    if q.c == JVal.num 0 && q.dp == JVal.null then
      ⟨404, some ⟨false, notFoundMsg up, none⟩, cache, 1, 0, 0⟩
    else
      match send with
      | .ok =>
        let payload := successPayload up q
        ⟨200, some payload, cacheSet cache ("symbol:" ++ up) ⟨now, payload⟩,
          1, 1, 0⟩
      | .rateLimited => ⟨429, some ⟨false, rateLimitMsg, none⟩, cache, 1, 1, 0⟩
      | .timeout => ⟨504, some ⟨false, timeoutMsg, none⟩, cache, 1, 1, 0⟩
      | .fail => ⟨500, some ⟨false, genericFailMsg, none⟩, cache, 1, 1, 0⟩

/-- src/api/send.js lines 18-189: the cached handler. A missing `symbol`
query parameter is `none`; the JavaScript `!symbol` test also catches the
empty string, which the regular expression rejects as well. -/
def handler (cfg : Config) (method : String) (symbol? : Option String)
    (cache : CacheMap) (now : ℤ) (fetch : FetchOutcome)
    (send : SendOutcome) : HResult :=
  if method == "OPTIONS" then ⟨200, none, cache, 0, 0, 0⟩
  else if !cfg.ok then ⟨500, some ⟨false, configErrMsg, none⟩, cache, 0, 0, 0⟩
  else
    match symbol? with
    | none => ⟨400, some ⟨false, invalidSymbolMsg, none⟩, cache, 0, 0, 0⟩
    | some sym =>
      if !(symbolRegexTest (jsToUpper sym)) then
        ⟨400, some ⟨false, invalidSymbolMsg, none⟩, cache, 0, 0, 0⟩
      else
        let up := jsToUpper sym
        match cacheGet cache ("symbol:" ++ up) with
        | some entry =>
          if now - entry.timestamp < CACHE_TTL then
            ⟨200, some entry.data, cache, 0, 0, 0⟩
          else fetchPhase up cache now fetch send
        | none => fetchPhase up cache now fetch send

/-- Result of the cache-less alert variant (src/unnamed/part_000):
status, body, and call counters; `alertCalls` counts error-alert posts. -/
structure HResult0 where
  status : Nat
  body : Option RespBody
  finnhubCalls : Nat
  telegramCalls : Nat
  alertCalls : Nat
deriving DecidableEq

/-- src/unnamed/part_000 lines 37-183: the alert variant. Every failure
path first awaits `sendTelegramAlert`, which posts one message whenever the
bot token and chat id are present (`alertCount`); a malformed upstream body
is answered with 502 instead of being thrown. -/
def part000Handler (cfg : Config) (method : String) (symbol? : Option String)
    (fetch : FetchOutcome) (send : SendOutcome) : HResult0 :=
  if method == "OPTIONS" then ⟨200, none, 0, 0, 0⟩
  else if !cfg.ok then
    ⟨500, some ⟨false, configErrMsg, none⟩, 0, 0, alertCount cfg⟩
  else
    match symbol? with
    | none => ⟨400, some ⟨false, invalidSymbolMsg, none⟩, 0, 0, alertCount cfg⟩
    | some sym =>
      if !(symbolRegexTest (jsToUpper sym)) then
        ⟨400, some ⟨false, invalidSymbolMsg, none⟩, 0, 0, alertCount cfg⟩
      else
        let up := jsToUpper sym
        match fetch with
        | .badFormat =>
          ⟨502, some ⟨false, badFormat000Msg, none⟩, 1, 0, alertCount cfg⟩
        | .rateLimited =>
          ⟨429, some ⟨false, rateLimitMsg, none⟩, 1, 0, alertCount cfg⟩
        | .timeout =>
          ⟨504, some ⟨false, timeoutMsg, none⟩, 1, 0, alertCount cfg⟩
        | .netError =>
          ⟨500, some ⟨false, notifiedFailMsg, none⟩, 1, 0, alertCount cfg⟩
        | .ok q =>
          if q.c == JVal.num 0 && q.dp == JVal.null then
            ⟨404, some ⟨false, notFoundShortMsg up, none⟩, 1, 0, alertCount cfg⟩
          else
            match send with
            | .ok =>
              ⟨200, some ⟨true, successMsg000 up, some ⟨up, q.c, q.dp, q.t⟩⟩,
                1, 1, 0⟩
            | .rateLimited =>
              ⟨429, some ⟨false, rateLimitMsg, none⟩, 1, 1, alertCount cfg⟩
            | .timeout =>
              ⟨504, some ⟨false, timeoutMsg, none⟩, 1, 1, alertCount cfg⟩
            | .fail =>
              ⟨500, some ⟨false, notifiedFailMsg, none⟩, 1, 1, alertCount cfg⟩

/-- src/unnamed/part_000 lines 12-35, `sendTelegramAlert`: returns `false`
without posting when a credential is missing, `true` when the post
succeeds, and `false` (after logging) when the inner post throws — the
`catch` swallows the exception, so the function itself never throws. The
`post` argument is the outcome the inner `axios.post` would produce. -/
def sendTelegramAlert (botToken chatId : String)
    (post : Except String Unit) : Except String Bool :=
  if botToken == "" || chatId == "" then .ok false
  else
    match post with
    | .ok _ => .ok true
    | .error _ => .ok false

/-- src/unnamed/part_001 lines 207-222, `sendErrorToTelegram`: like
`sendTelegramAlert` but returns `undefined` on every path; the `catch`
swallows a failing post, so the helper never throws. -/
def sendErrorToTelegram (botToken chatId : String)
    (post : Except String Unit) : Except String Unit :=
  if botToken == "" || chatId == "" then .ok ()
  else
    match post with
    | .ok _ => .ok ()
    | .error _ => .ok ()

/-- src/unnamed/part_001 lines 274-426: the part of the cache + alert
handler past the cache check. Each failure path awaits
`sendErrorToTelegram` (so a hypothetical exception there would propagate,
which the `bind` makes explicit); a malformed upstream body sends one
alert, throws, and the `catch` then sends a second alert. -/
def part001Fetch (cfg : Config) (up : String) (cache : CacheMap) (now : ℤ)
    (fetch : FetchOutcome) (send : SendOutcome)
    (alertPost : Except String Unit) : Except String HResult :=
  match fetch with
  | .badFormat =>
    (sendErrorToTelegram cfg.telegramToken cfg.chatId alertPost).bind fun _ =>
      (sendErrorToTelegram cfg.telegramToken cfg.chatId alertPost).bind fun _ =>
        .ok ⟨500, some ⟨false, notifiedFailMsg, none⟩, cache, 1, 0,
          alertCount cfg + alertCount cfg⟩
  | .rateLimited =>
    (sendErrorToTelegram cfg.telegramToken cfg.chatId alertPost).bind fun _ =>
      .ok ⟨429, some ⟨false, rateLimitMsg, none⟩, cache, 1, 0, alertCount cfg⟩
  | .timeout =>
    (sendErrorToTelegram cfg.telegramToken cfg.chatId alertPost).bind fun _ =>
      .ok ⟨504, some ⟨false, timeoutMsg, none⟩, cache, 1, 0, alertCount cfg⟩
  | .netError =>
    (sendErrorToTelegram cfg.telegramToken cfg.chatId alertPost).bind fun _ =>
      .ok ⟨500, some ⟨false, notifiedFailMsg, none⟩, cache, 1, 0, alertCount cfg⟩
  | .ok q =>
    if q.c == JVal.num 0 && q.dp == JVal.null then
      (sendErrorToTelegram cfg.telegramToken cfg.chatId alertPost).bind fun _ =>
        .ok ⟨404, some ⟨false, notFoundShortMsg up, none⟩, cache, 1, 0,
          alertCount cfg⟩
    else
      match send with
      | .ok =>
        let payload := successPayload up q
        .ok ⟨200, some payload, cacheSet cache ("symbol:" ++ up) ⟨now, payload⟩,
          1, 1, 0⟩
      | .rateLimited =>
        (sendErrorToTelegram cfg.telegramToken cfg.chatId alertPost).bind fun _ =>
          .ok ⟨429, some ⟨false, rateLimitMsg, none⟩, cache, 1, 1, alertCount cfg⟩
      | .timeout =>
        (sendErrorToTelegram cfg.telegramToken cfg.chatId alertPost).bind fun _ =>
          .ok ⟨504, some ⟨false, timeoutMsg, none⟩, cache, 1, 1, alertCount cfg⟩
      | .fail =>
        (sendErrorToTelegram cfg.telegramToken cfg.chatId alertPost).bind fun _ =>
          .ok ⟨500, some ⟨false, notifiedFailMsg, none⟩, cache, 1, 1,
            alertCount cfg⟩

/-- src/unnamed/part_001 lines 224-427: the cache + alert handler. -/
def part001Handler (cfg : Config) (method : String) (symbol? : Option String)
    (cache : CacheMap) (now : ℤ) (fetch : FetchOutcome) (send : SendOutcome)
    (alertPost : Except String Unit) : Except String HResult :=
  if method == "OPTIONS" then .ok ⟨200, none, cache, 0, 0, 0⟩
  else if !cfg.ok then
    (sendErrorToTelegram cfg.telegramToken cfg.chatId alertPost).bind fun _ =>
      .ok ⟨500, some ⟨false, configErrMsg, none⟩, cache, 0, 0, alertCount cfg⟩
  else
    match symbol? with
    | none =>
      (sendErrorToTelegram cfg.telegramToken cfg.chatId alertPost).bind fun _ =>
        .ok ⟨400, some ⟨false, invalidSymbolMsg, none⟩, cache, 0, 0,
          alertCount cfg⟩
    | some sym =>
      if !(symbolRegexTest (jsToUpper sym)) then
        (sendErrorToTelegram cfg.telegramToken cfg.chatId alertPost).bind fun _ =>
          .ok ⟨400, some ⟨false, invalidSymbolMsg, none⟩, cache, 0, 0,
            alertCount cfg⟩
      else
        let up := jsToUpper sym
        match cacheGet cache ("symbol:" ++ up) with
        | some entry =>
          if now - entry.timestamp < CACHE_TTL then
            .ok ⟨200, some entry.data, cache, 0, 0, 0⟩
          else part001Fetch cfg up cache now fetch send alertPost
        | none => part001Fetch cfg up cache now fetch send alertPost

/-- Result of the retry wrapper: how many attempts were made, which
delays (in ms) were slept between attempts, and whether the message went
out or the final error was thrown. -/
inductive RetryResult where
  | sent : Nat → List Nat → RetryResult
  | threw : Nat → List Nat → String → RetryResult
  | exited : Nat → List Nat → RetryResult
deriving DecidableEq

/-- The `while (attempts < this.maxRetries)` loop of
`TelegramService.sendMessage` (src/api/send.js lines 397-412), with
`maxRetries - attempts` as structural fuel. `f a` is the outcome of the
`a`-th attempt (`none` = delivered, `some e` = the underlying send threw
`e`). On a failed non-final attempt the loop sleeps `1000 * attempts` ms;
on a failed final attempt it throws. -/
def retryGo (f : Nat → Option String) (maxRetries : Nat) :
    Nat → Nat → List Nat → RetryResult
  | 0, attempts, delays => .exited attempts delays
  | fuel + 1, attempts, delays =>
    let a := attempts + 1
    match f a with
    | none => .sent a delays
    | some e =>
      if a = maxRetries then
        .threw a delays
          ("Failed after " ++ toString maxRetries ++ " attempts: " ++ e)
      else retryGo f maxRetries fuel a (delays ++ [1000 * a])

/-- src/api/send.js lines 397-412: `sendMessage` of the
`TelegramService` with `maxRetries = 3`. -/
def TelegramService.sendMessage (f : Nat → Option String) : RetryResult :=
  retryGo f 3 3 0 []

/-- The candle payload of the Finnhub `stockCandles` callback: status
string, optional error text, closing prices (`none` when the `c` field is
absent). -/
structure CandleData where
  s : String
  err : Option String
  c : Option (List ℚ)
deriving DecidableEq

/-- src/api/send.js lines 357-387, `FinnhubService.getStockCandles`: one
single provider call (the first component is the number of calls made —
there is no retry loop around the quote fetch), whose promise resolves or
rejects according to the callback data. -/
def FinnhubService.getStockCandles (resp : Except String CandleData) :
    Nat × Except String CandleData :=
  (1,
    match resp with
    | .error e => .error ("Finnhub API failed: " ++ e)
    | .ok d =>
      if d.s ≠ "ok" then
        .error ("Finnhub data error: " ++ d.err.getD "Unknown error")
      else
        match d.c with
        | none => .error "No closing prices received"
        | some cs =>
          if cs = [] then .error "No closing prices received" else .ok d)

/-- JavaScript `data.slice(-window)`: the last `window` elements, except
that `slice(-0)` is `slice(0)`, the whole array. -/
def jsSliceLast (l : List ℚ) (w : Nat) : List ℚ :=
  if w = 0 then l else l.drop (l.length - w)

/-- `calculateSMA` of src/api/send.js lines 221-227: `null` (here `none`)
when the data is missing or shorter than the window, otherwise the sum of
the last `window` elements divided by `window`. -/
def calculateSMA (data : Option (List ℚ)) (window : Nat) : Option ℚ :=
  match data with
  | none => none
  | some l =>
    if l.length < window then none
    else some ((jsSliceLast l window).foldl (fun sum price => sum + price) 0
      / (window : ℚ))

/-- `calculateSMA` of src/unnamed/part_001 lines 172-176 (and the copy at
src/api/send.js lines 476-480): identical except that the sentinel
non-value is NaN, which `none` models here. -/
def calculateSMAnan (data : Option (List ℚ)) (window : Nat) : Option ℚ :=
  match data with
  | none => none
  | some l =>
    if l.length < window then none
    else some ((jsSliceLast l window).foldl (fun sum val => sum + val) 0
      / (window : ℚ))

/-! ## Helper lemmas -/

theorem toFixed2_of_floor (q : ℚ) (n : ℕ) (h0 : ¬ q < 0)
    (h : ⌊q * 100 + 1/2⌋ = (n : ℤ)) : toFixed2 q = natFixed2 n := by
  rw [toFixed2, if_neg h0, h, Int.toNat_natCast]

theorem toFixed2_eval_current : toFixed2 (150.1234 : ℚ) = "150.12" :=
  (toFixed2_of_floor _ 15012 (by norm_num) (by norm_num)).trans (by rfl)

theorem toFixed2_eval_dp : toFixed2 (1.5 : ℚ) = "1.50" :=
  (toFixed2_of_floor _ 150 (by norm_num) (by norm_num)).trans (by rfl)

theorem toFixed2_eval_delta : toFixed2 ((150.1234 : ℚ) - 148) = "2.12" :=
  (toFixed2_of_floor _ 212 (by norm_num) (by norm_num)).trans (by rfl)

theorem toFixed2_eval_pc : toFixed2 (148 : ℚ) = "148.00" :=
  (toFixed2_of_floor _ 14800 (by norm_num) (by norm_num)).trans (by rfl)

theorem renderFields_c4_example :
    renderFields ⟨JVal.num 150.1234, JVal.null, JVal.null, JVal.null,
        JVal.num 148, JVal.num 1.5, JVal.null⟩ =
      ⟨"150.12", "N/A", "N/A", "N/A", "148.00", "1.50", "2.12", "💹 Up", "+"⟩ := by
  have hc : ((150.1234 : ℚ) = 0) = False := by norm_num
  have hpc : ((148 : ℚ) = 0) = False := by norm_num
  have hdp : ((0 : ℚ) ≤ 1.5) = True := by norm_num
  have hdp2 : ((1.5 : ℚ) = 0) = False := by norm_num
  simp [renderFields, jsTruthy, jsGeZero, formatPrice, hc, hpc, hdp, hdp2,
    toFixed2_eval_current, toFixed2_eval_dp, toFixed2_eval_delta,
    toFixed2_eval_pc]

/-! ## C4 — change-line formatting -/

/-- Claim C4: for every quote with numeric percent-change the change line
uses the up indicator and a plus sign exactly when the percent change is
nonnegative, and the down indicator with an empty sign otherwise; at
current=150.1234, previous-close=148.00, percent-change=1.5 the rendering
is the up indicator, the plus sign, 150.12, +1.50 percent, delta 2.12. -/
theorem c4_change_line_format :
    (∀ (q : Quote) (x : ℚ), q.dp = JVal.num x →
      ((0 ≤ x → (renderFields q).emoji = "💹 Up" ∧ (renderFields q).sign = "+") ∧
        (x < 0 → (renderFields q).emoji = "🔻 Down" ∧ (renderFields q).sign = ""))) ∧
    changeLine ⟨JVal.num 150.1234, JVal.null, JVal.null, JVal.null,
        JVal.num 148, JVal.num 1.5, JVal.null⟩ =
      "Change: 💹 Up *$2.12* (+1.50%)" ∧
    renderFields ⟨JVal.num 150.1234, JVal.null, JVal.null, JVal.null,
        JVal.num 148, JVal.num 1.5, JVal.null⟩ =
      ⟨"150.12", "N/A", "N/A", "N/A", "148.00", "1.50", "2.12", "💹 Up", "+"⟩ := by
  refine ⟨fun q x hdp => ⟨fun hx => ?_, fun hx => ?_⟩, ?_, renderFields_c4_example⟩
  · constructor <;> simp [renderFields, jsGeZero, hdp, hx]
  · constructor <;> simp [renderFields, jsGeZero, hdp, not_le.mpr hx]
  · simp only [changeLine, renderFields_c4_example]
    rfl

/-- Witness for C4: the up indicator and plus sign at the example quote,
obtained by applying the theorem at percent-change 1.5. -/
theorem c4_witness :
    (renderFields ⟨JVal.num 150.1234, JVal.null, JVal.null, JVal.null,
        JVal.num 148, JVal.num 1.5, JVal.null⟩).emoji = "💹 Up" ∧
    (renderFields ⟨JVal.num 150.1234, JVal.null, JVal.null, JVal.null,
        JVal.num 148, JVal.num 1.5, JVal.null⟩).sign = "+" :=
  (c4_change_line_format.1 _ 1.5 rfl).1 (by norm_num)

/-! ## C5 — the N/A placeholder -/

/-- Counterexample to C5 as stated: in the cached handler variants a
`null` percent change does not render as the `N/A` placeholder — the
truthiness test on line 99 of src/api/send.js short-circuits it to the
`0.00` fallback before `formatPrice` is ever consulted. -/
theorem c5_counterexample :
    (renderFields ⟨JVal.num 1, JVal.null, JVal.null, JVal.null, JVal.num 1,
        JVal.null, JVal.null⟩).percentChange = "0.00" ∧
    "0.00" ≠ "N/A" :=
  ⟨rfl, by decide⟩

/-- Claim C5 (amended): a `null`/`undefined` current, high, low, open or
previous-close price renders as the `N/A` placeholder in all variants
(formatting is a total function, so it never raises); a `null`/`undefined`
percent change renders as `N/A` only in the part_000 variant, while the
cached variants render the `0.00` fallback. -/
theorem c5_na_placeholder (q : Quote) :
    ((q.c = JVal.null ∨ q.c = JVal.undef) →
      (renderFields q).currentPrice = "N/A" ∧
      (part000Render q).currentPrice = "N/A") ∧
    ((q.h = JVal.null ∨ q.h = JVal.undef) →
      (renderFields q).highPrice = "N/A" ∧
      (part000Render q).highPrice = "N/A") ∧
    ((q.l = JVal.null ∨ q.l = JVal.undef) →
      (renderFields q).lowPrice = "N/A" ∧
      (part000Render q).lowPrice = "N/A") ∧
    ((q.o = JVal.null ∨ q.o = JVal.undef) →
      (renderFields q).openPrice = "N/A" ∧
      (part000Render q).openPrice = "N/A") ∧
    ((q.pc = JVal.null ∨ q.pc = JVal.undef) →
      (renderFields q).prevClosePrice = "N/A" ∧
      (part000Render q).prevClosePrice = "N/A") ∧
    ((q.dp = JVal.null ∨ q.dp = JVal.undef) →
      (part000Render q).percentChange = "N/A" ∧
      (renderFields q).percentChange = "0.00") := by
  refine ⟨?_, ?_, ?_, ?_, ?_, ?_⟩ <;> rintro (h | h) <;>
    simp [renderFields, part000Render, formatPrice, formatPriceAlt, jsTruthy, h]

/-- Witness for C5: the placeholder at an all-null quote, obtained by
applying the theorem there. -/
theorem c5_witness :
    (renderFields ⟨JVal.null, JVal.null, JVal.null, JVal.null, JVal.null,
        JVal.null, JVal.null⟩).currentPrice = "N/A" ∧
    (renderFields ⟨JVal.null, JVal.null, JVal.null, JVal.null, JVal.null,
        JVal.null, JVal.null⟩).highPrice = "N/A" ∧
    (part000Render ⟨JVal.null, JVal.null, JVal.null, JVal.null, JVal.null,
        JVal.null, JVal.null⟩).percentChange = "N/A" :=
  ⟨((c5_na_placeholder _).1 (Or.inl rfl)).1,
    ((c5_na_placeholder _).2.1 (Or.inl rfl)).1,
    ((c5_na_placeholder _).2.2.2.2.2 (Or.inl rfl)).1⟩

/-! ## C10 — falsy percent change -/

/-- Counterexample to C10 as stated: for an `undefined` percent change the
claimed up indicator and plus sign do not appear — in JavaScript
`undefined >= 0` is false (NaN comparison), so the change line shows the
down indicator and an empty sign. -/
theorem c10_counterexample :
    (renderFields ⟨JVal.num 1, JVal.null, JVal.null, JVal.null, JVal.num 1,
        JVal.undef, JVal.null⟩).emoji = "🔻 Down" ∧
    "🔻 Down" ≠ "💹 Up" ∧
    (renderFields ⟨JVal.num 1, JVal.null, JVal.null, JVal.null, JVal.num 1,
        JVal.undef, JVal.null⟩).sign = "" :=
  ⟨rfl, by decide, rfl⟩

/-- Claim C10 (amended): a `null` percent change renders the up indicator,
the plus sign and the `0.00` fallback (JavaScript `null >= 0` is true); a
percent change of exactly 0 renders the same via the falsy branch; an
`undefined` percent change still renders the `0.00` fallback but with the
down indicator and an empty sign (`undefined >= 0` is false). -/
theorem c10_falsy_percent (q : Quote) :
    (q.dp = JVal.null →
      (renderFields q).emoji = "💹 Up" ∧ (renderFields q).sign = "+" ∧
        (renderFields q).percentChange = "0.00") ∧
    (q.dp = JVal.num 0 →
      (renderFields q).emoji = "💹 Up" ∧ (renderFields q).sign = "+" ∧
        (renderFields q).percentChange = "0.00") ∧
    (q.dp = JVal.undef →
      (renderFields q).emoji = "🔻 Down" ∧ (renderFields q).sign = "" ∧
        (renderFields q).percentChange = "0.00") := by
  refine ⟨fun h => ?_, fun h => ?_, fun h => ?_⟩ <;>
    simp [renderFields, jsTruthy, jsGeZero, h]

/-- Witness for C10: the null-percent-change rendering at a concrete
quote, obtained by applying the theorem there. -/
theorem c10_witness :
    (renderFields ⟨JVal.num 2, JVal.null, JVal.null, JVal.null, JVal.num 1,
        JVal.null, JVal.null⟩).emoji = "💹 Up" ∧
    (renderFields ⟨JVal.num 2, JVal.null, JVal.null, JVal.null, JVal.num 1,
        JVal.null, JVal.null⟩).sign = "+" ∧
    (renderFields ⟨JVal.num 2, JVal.null, JVal.null, JVal.null, JVal.num 1,
        JVal.null, JVal.null⟩).percentChange = "0.00" :=
  (c10_falsy_percent _).1 rfl

/-! ## C9 — simple moving average -/

theorem foldl_add_eq_sum (l : List ℚ) (a : ℚ) :
    l.foldl (fun sum price => sum + price) a = a + l.sum := by
  induction l generalizing a with
  | nil => simp
  | cons x xs ih => simp only [List.foldl_cons, List.sum_cons, ih]; ring

/-- Claim C9: `calculateSMA` returns the arithmetic mean of the last
`window` elements when the data is long enough (for a positive window; the
suffix `l.drop (l.length - w)` indeed has length `w`), and the sentinel
non-value — `null` in the src/api/send.js variant, NaN in the others, both
modelled by `none` — when the data is missing or too short. All variants
are total functions, so no input makes them throw. -/
theorem c9_sma (w : Nat) :
    calculateSMA none w = none ∧
    calculateSMAnan none w = none ∧
    (∀ l : List ℚ, l.length < w →
      calculateSMA (some l) w = none ∧ calculateSMAnan (some l) w = none) ∧
    (∀ l : List ℚ, 0 < w → w ≤ l.length →
      (l.drop (l.length - w)).length = w ∧
      calculateSMA (some l) w =
        some ((l.drop (l.length - w)).sum / (w : ℚ)) ∧
      calculateSMAnan (some l) w =
        some ((l.drop (l.length - w)).sum / (w : ℚ))) := by
  refine ⟨rfl, rfl, fun l h => ?_, fun l hw hlen => ?_⟩
  · constructor <;> simp [calculateSMA, calculateSMAnan, h]
  · have hnl : ¬ l.length < w := not_lt.mpr hlen
    have hslice : jsSliceLast l w = l.drop (l.length - w) := by
      rw [jsSliceLast, if_neg (Nat.pos_iff_ne_zero.mp hw)]
    refine ⟨?_, ?_, ?_⟩
    · rw [List.length_drop]
      exact Nat.sub_sub_self hlen
    · rw [calculateSMA, if_neg hnl, hslice, foldl_add_eq_sum, zero_add]
    · rw [calculateSMAnan, if_neg hnl, hslice, foldl_add_eq_sum, zero_add]

/-- Witness for C9: the mean of the last two of three elements, obtained
by applying the theorem at window 2 and data `[1, 2, 3]`. -/
theorem c9_witness :
    (([1, 2, 3] : List ℚ).drop (([1, 2, 3] : List ℚ).length - 2)).length = 2 ∧
    calculateSMA (some [1, 2, 3]) 2 =
      some ((([1, 2, 3] : List ℚ).drop (([1, 2, 3] : List ℚ).length - 2)).sum
        / (2 : ℚ)) ∧
    calculateSMAnan (some [1, 2, 3]) 2 =
      some ((([1, 2, 3] : List ℚ).drop (([1, 2, 3] : List ℚ).length - 2)).sum
        / (2 : ℚ)) :=
  (c9_sma 2).2.2.2 [1, 2, 3] (by decide) (by simp)

/-! ## C6 — retry wrapper -/

/-- Claim C6: the retry wrapper makes at most 3 attempts — it succeeds on
the first attempt with no delay, else sleeps 1000 ms (attempt 1 × 1000)
and retries, else sleeps 2000 ms and retries once more, and after a third
consecutive failure throws an error naming the exhausted attempt count;
the quote fetch, by contrast, always performs exactly one provider call. -/
theorem c6_retry_bounds (f : Nat → Option String)
    (resp : Except String CandleData) :
    TelegramService.sendMessage f =
      (match f 1 with
       | none => RetryResult.sent 1 []
       | some _ =>
         match f 2 with
         | none => RetryResult.sent 2 [1000]
         | some _ =>
           match f 3 with
           | none => RetryResult.sent 3 [1000, 2000]
           | some e =>
             RetryResult.threw 3 [1000, 2000]
               ("Failed after 3 attempts: " ++ e)) ∧
    (FinnhubService.getStockCandles resp).1 = 1 := by
  constructor
  · rcases h1 : f 1 with _ | e1 <;> rcases h2 : f 2 with _ | e2 <;>
      rcases h3 : f 3 with _ | e3 <;>
      (simp [TelegramService.sendMessage, retryGo, h1, h2, h3]; try rfl)
  · rfl

/-! ## Handler helper lemmas -/

theorem Config.ok_fields {cfg : Config} (h : cfg.ok = true) :
    cfg.finnhubKey ≠ "" ∧ cfg.telegramToken ≠ "" ∧ cfg.chatId ≠ "" := by
  simpa [Config.ok, and_assoc] using h

theorem alertCount_of_ok {cfg : Config} (h : cfg.ok = true) :
    alertCount cfg = 1 := by
  obtain ⟨-, h2, h3⟩ := Config.ok_fields h
  simp [alertCount, h2, h3]

theorem sendErrorToTelegram_ok (tok chat : String)
    (post : Except String Unit) :
    sendErrorToTelegram tok chat post = Except.ok () := by
  unfold sendErrorToTelegram
  split
  · rfl
  · cases post <;> rfl

theorem fetchPhase_finnhubCalls (up : String) (cache : CacheMap) (now : ℤ)
    (fetch : FetchOutcome) (send : SendOutcome) :
    (fetchPhase up cache now fetch send).finnhubCalls = 1 := by
  cases fetch with
  | ok q =>
    by_cases h4 : (q.c == JVal.num 0 && q.dp == JVal.null) = true
    · simp [fetchPhase, h4]
    · cases send <;> simp [fetchPhase, h4]
  | badFormat => rfl
  | rateLimited => rfl
  | timeout => rfl
  | netError => rfl

theorem fetchPhase_cache (up : String) (cache : CacheMap) (now : ℤ)
    (fetch : FetchOutcome) (send : SendOutcome) :
    (fetchPhase up cache now fetch send).cache = cache ∨
    ∃ q, fetch = FetchOutcome.ok q ∧ send = SendOutcome.ok ∧
      fetchPhase up cache now fetch send =
        ⟨200, some (successPayload up q),
          cacheSet cache ("symbol:" ++ up) ⟨now, successPayload up q⟩, 1, 1, 0⟩ := by
  cases fetch with
  | ok q =>
    by_cases h4 : (q.c == JVal.num 0 && q.dp == JVal.null) = true
    · left; simp [fetchPhase, h4]
    · cases send with
      | ok => exact Or.inr ⟨q, rfl, rfl, by simp [fetchPhase, h4]⟩
      | rateLimited => left; simp [fetchPhase, h4]
      | timeout => left; simp [fetchPhase, h4]
      | fail => left; simp [fetchPhase, h4]
  | badFormat => left; rfl
  | rateLimited => left; rfl
  | timeout => left; rfl
  | netError => left; rfl

/-! ## C2 — cache time-to-live -/

/-- Claim C2: a cache entry is served exactly when its age is strictly
below the 30000 ms TTL — then the handler returns the cached payload with
zero outbound calls — while an entry at or past the TTL is treated as
absent, so a fresh quote fetch occurs. -/
theorem c2_cache_ttl (cfg : Config) (s : String) (cache : CacheMap)
    (now : ℤ) (fetch : FetchOutcome) (send : SendOutcome) (e : CacheEntry)
    (hcfg : cfg.ok = true)
    (hsym : symbolRegexTest (jsToUpper s) = true)
    (hit : cacheGet cache ("symbol:" ++ jsToUpper s) = some e) :
    (now - e.timestamp < CACHE_TTL →
      handler cfg "GET" (some s) cache now fetch send =
        ⟨200, some e.data, cache, 0, 0, 0⟩) ∧
    (CACHE_TTL ≤ now - e.timestamp →
      (handler cfg "GET" (some s) cache now fetch send).finnhubCalls = 1) := by
  constructor
  · intro hfresh
    simp [handler, hcfg, hsym, hit, hfresh]
  · intro hexp
    simp [handler, hcfg, hsym, hit, not_lt.mpr hexp, fetchPhase_finnhubCalls]

/-- Witness for C2: a fresh hit at age 100 ms returns the cached payload
with zero calls, and the same entry at age 30000 ms triggers one quote
fetch; both by applying the theorem at a concrete cache. -/
theorem c2_witness :
    handler ⟨"k", "t", "c"⟩ "GET" (some "AAPL")
        [("symbol:AAPL", ⟨0, ⟨true, "ok", none⟩⟩)] 100 FetchOutcome.netError
        SendOutcome.ok =
      ⟨200, some ⟨true, "ok", none⟩, [("symbol:AAPL", ⟨0, ⟨true, "ok", none⟩⟩)],
        0, 0, 0⟩ ∧
    (handler ⟨"k", "t", "c"⟩ "GET" (some "AAPL")
        [("symbol:AAPL", ⟨0, ⟨true, "ok", none⟩⟩)] 30000 FetchOutcome.netError
        SendOutcome.ok).finnhubCalls = 1 :=
  ⟨(c2_cache_ttl ⟨"k", "t", "c"⟩ "AAPL"
      [("symbol:AAPL", ⟨0, ⟨true, "ok", none⟩⟩)] 100 FetchOutcome.netError
      SendOutcome.ok ⟨0, ⟨true, "ok", none⟩⟩ (by decide) (by decide)
      (by decide)).1 (by decide),
    (c2_cache_ttl ⟨"k", "t", "c"⟩ "AAPL"
      [("symbol:AAPL", ⟨0, ⟨true, "ok", none⟩⟩)] 30000 FetchOutcome.netError
      SendOutcome.ok ⟨0, ⟨true, "ok", none⟩⟩ (by decide) (by decide)
      (by decide)).2 (by decide)⟩

/-! ## C1 — invalid symbol -/

/-- Counterexample to C1 as stated: on an invalid symbol the part_000
alert variant does make an outbound call to the messaging provider — one
best-effort error alert — before responding 400, so "no outbound call at
all" fails there. -/
theorem c1_counterexample :
    (part000Handler ⟨"k", "t", "c"⟩ "GET" (some "gm7") FetchOutcome.netError
        SendOutcome.ok).status = 400 ∧
    (part000Handler ⟨"k", "t", "c"⟩ "GET" (some "gm7") FetchOutcome.netError
        SendOutcome.ok).alertCalls ≠ 0 := by
  decide

/-- Claim C1 (amended): an absent or regex-rejected symbol yields a 400
failure payload and no quote-provider call; the plain cached variant makes
no messaging-provider call either, while the part_000 alert variant posts
exactly one best-effort error alert (and no stock message). -/
theorem c1_invalid_symbol (cfg : Config) (method : String)
    (symbol? : Option String) (cache : CacheMap) (now : ℤ)
    (fetch fetch0 : FetchOutcome) (send send0 : SendOutcome)
    (hm : method ≠ "OPTIONS") (hcfg : cfg.ok = true)
    (hbad : ∀ s, symbol? = some s → symbolRegexTest (jsToUpper s) = false) :
    handler cfg method symbol? cache now fetch send =
      ⟨400, some ⟨false, invalidSymbolMsg, none⟩, cache, 0, 0, 0⟩ ∧
    part000Handler cfg method symbol? fetch0 send0 =
      ⟨400, some ⟨false, invalidSymbolMsg, none⟩, 0, 0, 1⟩ := by
  have hm2 : (method == "OPTIONS") = false := beq_eq_false_iff_ne.mpr hm
  rcases symbol? with _ | s
  · constructor <;>
      simp [handler, part000Handler, hm2, hcfg, alertCount_of_ok hcfg]
  · have hb := hbad s rfl
    constructor <;>
      simp [handler, part000Handler, hm2, hcfg, hb, alertCount_of_ok hcfg]

/-- Witness for C1: the concrete invalid symbol gm7, obtained by applying
the theorem there. -/
theorem c1_witness :
    handler ⟨"k", "t", "c"⟩ "GET" (some "gm7") [] 0 FetchOutcome.netError
        SendOutcome.ok =
      ⟨400, some ⟨false, invalidSymbolMsg, none⟩, [], 0, 0, 0⟩ ∧
    part000Handler ⟨"k", "t", "c"⟩ "GET" (some "gm7") FetchOutcome.netError
        SendOutcome.ok =
      ⟨400, some ⟨false, invalidSymbolMsg, none⟩, 0, 0, 1⟩ :=
  c1_invalid_symbol ⟨"k", "t", "c"⟩ "GET" (some "gm7") [] 0
    FetchOutcome.netError FetchOutcome.netError SendOutcome.ok SendOutcome.ok
    (by decide) (by decide) (fun s hs => by cases hs; decide)

/-! ## C3 — not-found quote -/

/-- Counterexample to C3 as stated: on a quote with current price 0 and
null percent change the part_001 alert variant does call the messaging
provider — one best-effort error alert accompanies the 404, so "no other
message is sent" fails there. -/
theorem c3_counterexample :
    part001Handler ⟨"k", "t", "c"⟩ "GET" (some "AAPL") [] 0
        (FetchOutcome.ok ⟨JVal.num 0, JVal.null, JVal.null, JVal.null,
          JVal.null, JVal.null, JVal.null⟩) SendOutcome.ok (Except.ok ()) =
      Except.ok ⟨404, some ⟨false, notFoundShortMsg "AAPL", none⟩, [],
        1, 0, 1⟩ ∧
    (1 : Nat) ≠ 0 :=
  ⟨rfl, by decide⟩

/-- Claim C3 (amended): a quote with current price exactly 0 and null
percent change yields a 404 failure, message formatting and the stock
message are skipped and nothing is cached; the plain cached variant makes
no messaging-provider call at all, while the part_001 alert variant posts
exactly one best-effort error alert. -/
theorem c3_not_found (cfg : Config) (method : String) (s : String)
    (cache : CacheMap) (now : ℤ) (q : Quote) (send : SendOutcome)
    (alertPost : Except String Unit)
    (hm : method ≠ "OPTIONS") (hcfg : cfg.ok = true)
    (hsym : symbolRegexTest (jsToUpper s) = true)
    (hmiss : cacheGet cache ("symbol:" ++ jsToUpper s) = none)
    (hc : q.c = JVal.num 0) (hdp : q.dp = JVal.null) :
    handler cfg method (some s) cache now (FetchOutcome.ok q) send =
      ⟨404, some ⟨false, notFoundMsg (jsToUpper s), none⟩, cache, 1, 0, 0⟩ ∧
    part001Handler cfg method (some s) cache now (FetchOutcome.ok q) send
        alertPost =
      Except.ok ⟨404, some ⟨false, notFoundShortMsg (jsToUpper s), none⟩,
        cache, 1, 0, 1⟩ := by
  have hm2 : (method == "OPTIONS") = false := beq_eq_false_iff_ne.mpr hm
  have h4 : (q.c == JVal.num 0 && q.dp == JVal.null) = true := by
    simp [hc, hdp]
  constructor
  · simp [handler, hm2, hcfg, hsym, hmiss, fetchPhase, h4]
  · simp [part001Handler, part001Fetch, hm2, hcfg, hsym, hmiss, h4,
      sendErrorToTelegram_ok, alertCount_of_ok hcfg, Except.bind]

/-- Witness for C3: the not-found handling at a concrete zero quote,
obtained by applying the theorem there. -/
theorem c3_witness :
    handler ⟨"k", "t", "c"⟩ "GET" (some "MSFT") [] 5
        (FetchOutcome.ok ⟨JVal.num 0, JVal.null, JVal.null, JVal.null,
          JVal.null, JVal.null, JVal.null⟩) SendOutcome.ok =
      ⟨404, some ⟨false, notFoundMsg "MSFT", none⟩, [], 1, 0, 0⟩ ∧
    part001Handler ⟨"k", "t", "c"⟩ "GET" (some "MSFT") [] 5
        (FetchOutcome.ok ⟨JVal.num 0, JVal.null, JVal.null, JVal.null,
          JVal.null, JVal.null, JVal.null⟩) SendOutcome.ok (Except.ok ()) =
      Except.ok ⟨404, some ⟨false, notFoundShortMsg "MSFT", none⟩, [],
        1, 0, 1⟩ :=
  c3_not_found ⟨"k", "t", "c"⟩ "GET" "MSFT" [] 5
    ⟨JVal.num 0, JVal.null, JVal.null, JVal.null, JVal.null, JVal.null,
      JVal.null⟩ SendOutcome.ok (Except.ok ()) (by decide) (by decide)
    (by decide) (by decide) rfl rfl

/-! ## C8 — only full success is cached -/

/-- Claim C8: only full-success results are cached — for every input the
cached handler either leaves the cache untouched, or the quote fetch and
the messaging send both succeeded and exactly the 200 success payload
(success flag set, raw unrounded quote fields and timestamp) is inserted
under the symbol key; consequently no failure response is ever written. -/
theorem c8_cache_only_success (cfg : Config) (method : String)
    (symbol? : Option String) (cache : CacheMap) (now : ℤ)
    (fetch : FetchOutcome) (send : SendOutcome) :
    (handler cfg method symbol? cache now fetch send).cache = cache ∨
    (∃ s q, symbol? = some s ∧ fetch = FetchOutcome.ok q ∧
      send = SendOutcome.ok ∧
      (successPayload (jsToUpper s) q).success = true ∧
      (successPayload (jsToUpper s) q).data =
        some ⟨jsToUpper s, q.c, q.dp, q.t⟩ ∧
      handler cfg method symbol? cache now fetch send =
        ⟨200, some (successPayload (jsToUpper s) q),
          cacheSet cache ("symbol:" ++ jsToUpper s)
            ⟨now, successPayload (jsToUpper s) q⟩, 1, 1, 0⟩) := by
  by_cases hm : (method == "OPTIONS") = true
  · left; simp [handler, hm]
  · by_cases hcfg : cfg.ok = true
    · rcases symbol? with _ | s
      · left; simp [handler, hm, hcfg]
      · by_cases hv : symbolRegexTest (jsToUpper s) = true
        · rcases hcc : cacheGet cache ("symbol:" ++ jsToUpper s) with _ | e
          · have heq : handler cfg method (some s) cache now fetch send =
                fetchPhase (jsToUpper s) cache now fetch send := by
              simp [handler, hm, hcfg, hv, hcc]
            rcases fetchPhase_cache (jsToUpper s) cache now fetch send with
              h | ⟨q, hf, hs2, hfp⟩
            · left; rw [heq]; exact h
            · right
              exact ⟨s, q, rfl, hf, hs2, rfl, rfl, by rw [heq, hfp]⟩
          · by_cases hfresh : now - e.timestamp < CACHE_TTL
            · left; simp [handler, hm, hcfg, hv, hcc, hfresh]
            · have heq : handler cfg method (some s) cache now fetch send =
                  fetchPhase (jsToUpper s) cache now fetch send := by
                simp [handler, hm, hcfg, hv, hcc, hfresh]
              rcases fetchPhase_cache (jsToUpper s) cache now fetch send with
                h | ⟨q, hf, hs2, hfp⟩
              · left; rw [heq]; exact h
              · right
                exact ⟨s, q, rfl, hf, hs2, rfl, rfl, by rw [heq, hfp]⟩
        · left; simp [handler, hm, hcfg, hv]
    · left; simp [handler, hm, hcfg]

/-! ## C7 — alerts never escape -/

/-- Claim C7: the best-effort alert helpers never throw past their own
boundary — `sendTelegramAlert` always returns normally with a boolean
(false when a credential is missing or the inner post failed),
`sendErrorToTelegram` always returns normally with undefined — and the
part_001 handler result is completely independent of the outcome of the
alert posts. -/
theorem c7_alert_never_throws :
    (∀ (tok chat : String) (post : Except String Unit),
      ∃ b, sendTelegramAlert tok chat post = Except.ok b) ∧
    (∀ (tok chat : String) (post : Except String Unit),
      sendErrorToTelegram tok chat post = Except.ok ()) ∧
    (∀ (cfg : Config) (method : String) (symbol? : Option String)
        (cache : CacheMap) (now : ℤ) (fetch : FetchOutcome)
        (send : SendOutcome) (post1 post2 : Except String Unit),
      part001Handler cfg method symbol? cache now fetch send post1 =
        part001Handler cfg method symbol? cache now fetch send post2) := by
  refine ⟨?_, fun tok chat post => sendErrorToTelegram_ok tok chat post, ?_⟩
  · intro tok chat post
    unfold sendTelegramAlert
    split
    · exact ⟨false, rfl⟩
    · cases post
      · exact ⟨false, rfl⟩
      · exact ⟨true, rfl⟩
  · intro cfg method symbol? cache now fetch send post1 post2
    simp only [part001Handler, part001Fetch, sendErrorToTelegram_ok]
